import Mathlib

/-!
Verification development for the turn-taking orchestration and scoring
aggregation engine of the agentic repository.  The Lean definitions below are
shallow embeddings of the Python source:

* agentic/agents/debate/judge.py   (JudgeAgent, DebateScore, FinalJudgment)
* agentic/agents/rappers/judge.py  (RapBattleJudge, RapBattleScore, RapBattleJudgment)
* debateai/agents/base_agent.py    (BaseStreamingAgent.execute_tool_call, stream_response)
* debateai/graph.py                (run_streaming_debate loop)
* agentic/utils/tool_argument_filter.py (ToolArgumentFilter.filter_arguments)

Python floats are modelled as rationals (every numeric constant appearing in
the code and in the properties is exactly representable).  Python dicts that
carry parsed JSON are modelled as association lists.  The external json.loads
routine is a parameter (loads) of the functions that call it; the external
model-completion service is modelled by an outcome value describing what the
model returned or how it failed.
-/

namespace Agentic

/-- Values of the small JSON fragment the judges consume: numbers, strings and
string arrays (the shapes the evaluation prompt asks the model for). -/
inductive Json where
  | num (q : ℚ)
  | str (s : String)
  | arr (xs : List String)

/-- Parsed JSON objects, as association lists in document order. -/
abbrev JsonObj := List (String × Json)

/-- Lookup of a key in a parsed JSON object (Python dict indexing). -/
def jsonLookup (o : JsonObj) (k : String) : Option Json :=
  (o.find? (fun kv => kv.1 == k)).map (fun kv => kv.2)

/-- Membership test for a key (the Python test: field not in parsed_data). -/
def jsonHasKey (o : JsonObj) (k : String) : Bool :=
  (jsonLookup o k).isSome

/-- Python binary + on the JSON values a criterion field may hold: numbers
add, strings concatenate, string lists concatenate; mixing operand kinds
raises TypeError, modelled by none. -/
def pyAdd (x y : Json) : Option Json :=
  match x, y with
  | .num a, .num b => some (.num (a + b))
  | .str a, .str b => some (.str (a ++ b))
  | .arr a, .arr b => some (.arr (a ++ b))
  | _, _ => none

/-- Left-associated Python sum of a non-empty value sequence, as the total
computation in evaluate_turn chains the eight criterion values; none models
the TypeError raised by a mixed-kind addition, caught by the outer handler. -/
def pySumList (acc : Json) (vs : List Json) : Option Json :=
  match vs with
  | [] => some acc
  | v :: rest =>
    match pyAdd acc v with
    | none => none
    | some acc2 => pySumList acc2 rest

/-- Numeric rendering of a criterion or total value into the float-declared
dataclass field of the embedding.  Python stores the raw value unchecked;
non-numeric values (possible when all eight criteria are homogeneous strings
or lists, whose + concatenates) are rendered 0 here, the same declared-type
coercion convention as getStrList and getStr below.  Nothing the claims
state about such scores depends on this rendering. -/
def asNum (v : Json) : ℚ :=
  match v with
  | .num q => q
  | _ => 0

/-- String-list read of a JSON field.  The Python dataclass stores whatever
value the dict held; the declared type is a string list, so non-list values
are coerced to the empty list here. -/
def getStrList (v : Option Json) : List String :=
  match v with
  | some (.arr xs) => xs
  | _ => []

/-- String read of a JSON field, with the same coercion convention. -/
def getStr (v : Option Json) : String :=
  match v with
  | some (.str s) => s
  | _ => ""

/-- Substring extraction of _parse_evaluation_response: Python computes
start_idx = content.find(chr 123), end_idx = content.rfind(chr 125) + 1 and
slices content[start_idx:end_idx] when start_idx is not -1 and end_idx is not
0; otherwise it raises, which lands in the fallback branch (modelled here by
none). -/
def extractBraces (content : String) : Option String :=
  let cs := content.toList
  match cs.findIdx? (fun c => c = '\x7b'), (cs.reverse.findIdx? (fun c => c = '\x7d')) with
  | some si, some rj =>
      let ei := cs.length - 1 - rj
      some (String.mk ((cs.drop si).take (ei + 1 - si)))
  | _, _ => none

/-- Outcome of the external model calls made by evaluate_turn: either
create_model_instance raised ValueError, or model.invoke raised, or the
invocation returned a response with the given content string. -/
inductive ModelOutcome where
  | createError
  | invokeError
  | response (content : String)

/-- Abstraction of the Python format specifier :.1f used only inside the
narrative summary strings (number rendering differs, the surrounding text is
the source text). -/
def fmt1 (q : ℚ) : String := toString q

/-- Python str.title restricted to space-separated words, as applied to the
category names (which are ASCII words joined by spaces after the underscore
replacement). -/
def pyCapitalizeWord (w : String) : String :=
  match w.toList with
  | [] => ""
  | c :: rest => String.mk (c.toUpper :: rest.map Char.toLower)

/-- Title-casing of a category name, mirroring replace underscore-with-space
followed by str.title in the insight strings. -/
def pyTitle (s : String) : String :=
  String.intercalate " " ((s.splitOn " ").map pyCapitalizeWord)

/-- First key attaining the maximal value, as Python max over dict keys with a
key function (iteration in insertion order, first maximum kept). -/
def argmaxFirst (xs : List (String × ℚ)) : String :=
  match xs with
  | [] => ""
  | x :: rest => (rest.foldl (fun best y => if y.2 > best.2 then y else best) x).1

/-- First key attaining the minimal value, as Python min over dict keys with a
key function. -/
def argminFirst (xs : List (String × ℚ)) : String :=
  match xs with
  | [] => ""
  | x :: rest => (rest.foldl (fun best y => if y.2 < best.2 then y else best) x).1

namespace JudgeAgent

/-- DebateScore dataclass of agentic/agents/debate/judge.py. -/
structure DebateScore where
  turn_number : Nat
  speaker : String
  logic_reasoning : ℚ
  evidence_quality : ℚ
  source_credibility : ℚ
  argument_structure : ℚ
  rebuttal_effectiveness : ℚ
  clarity_communication : ℚ
  factual_accuracy : ℚ
  originality : ℚ
  total_score : ℚ
  strengths : List String
  weaknesses : List String
  specific_feedback : String
deriving Repr, DecidableEq

/-- FinalJudgment dataclass of agentic/agents/debate/judge.py. -/
structure FinalJudgment where
  progressive_total : ℚ
  conservative_total : ℚ
  winner : String
  margin : ℚ
  best_logic : String
  best_evidence : String
  best_communication : String
  best_rebuttals : String
  debate_quality : String
  key_insights : List String
  judge_summary : String
deriving Repr, DecidableEq

/-- Required fields checked by JudgeAgent._parse_evaluation_response. -/
def requiredFields : List String :=
  ["logic_reasoning", "evidence_quality", "source_credibility",
   "argument_structure", "rebuttal_effectiveness", "clarity_communication",
   "factual_accuracy", "originality", "strengths", "weaknesses", "specific_feedback"]

/-- JudgeAgent._create_fallback_evaluation. -/
def createFallbackEvaluation : JsonObj :=
  [("logic_reasoning", .num 6), ("evidence_quality", .num 6),
   ("source_credibility", .num 6), ("argument_structure", .num 6),
   ("rebuttal_effectiveness", .num 6), ("clarity_communication", .num 6),
   ("factual_accuracy", .num 6), ("originality", .num 6),
   ("strengths", .arr ["Argument presented", "Position articulated"]),
   ("weaknesses", .arr ["Could be more detailed", "Needs stronger evidence"]),
   ("specific_feedback", .str "Evaluation system encountered an error. Default scoring applied.")]

/-- JudgeAgent._parse_evaluation_response: extract the first-brace to
last-brace substring, parse it with json.loads (the loads parameter), check
the required fields, and fall back to the default evaluation on any failure. -/
def parseEvaluationResponse (loads : String → Option JsonObj) (content : String) : JsonObj :=
  match extractBraces content with
  | none => createFallbackEvaluation
  | some js =>
    match loads js with
    | none => createFallbackEvaluation
    | some parsed =>
      if requiredFields.all (fun f => jsonHasKey parsed f) then parsed
      else createFallbackEvaluation

/-- JudgeAgent._create_fallback_score. -/
def createFallbackScore (turn_number : Nat) (speaker : String) : DebateScore :=
  { turn_number := turn_number
    speaker := speaker
    logic_reasoning := 6
    evidence_quality := 6
    source_credibility := 6
    argument_structure := 6
    rebuttal_effectiveness := 6
    clarity_communication := 6
    factual_accuracy := 6
    originality := 6
    total_score := 48
    strengths := ["Participated in debate", "Presented viewpoint"]
    weaknesses := ["Evaluation system error"]
    specific_feedback := "Judge evaluation system encountered an error. Default scoring applied." }

/-- Reads of the eight criterion values, in the order the Python total is
computed.  A none result models the KeyError a missing key raises, caught by
the outer handler (the required-field check makes this unreachable after a
successful parse). -/
def criteriaJsons (o : JsonObj) :
    Option (Json × Json × Json × Json × Json × Json × Json × Json) := do
  let a ← jsonLookup o "logic_reasoning"
  let b ← jsonLookup o "evidence_quality"
  let c ← jsonLookup o "source_credibility"
  let d ← jsonLookup o "argument_structure"
  let e ← jsonLookup o "rebuttal_effectiveness"
  let f ← jsonLookup o "clarity_communication"
  let g ← jsonLookup o "factual_accuracy"
  let h ← jsonLookup o "originality"
  pure (a, b, c, d, e, f, g, h)

/-- Python total of the eight criterion values of a parsed evaluation: the
left-associated + chain succeeds when all eight are numbers (addition) or
homogeneously strings or lists (concatenation); none models the KeyError of
a missing key or the TypeError of mixed operand kinds. -/
def criteriaSum (o : JsonObj) : Option Json :=
  match criteriaJsons o with
  | none => none
  | some (a, b, c, d, e, f, g, h) => pySumList a [b, c, d, e, f, g, h]

/-- JudgeAgent.evaluate_turn, as a function of the model outcome.  The pair
returned is (the score the method returns, the scores list the judge owns
after the call).  The score is built and appended exactly when the Python
sum of the eight criterion values succeeds, including the homogeneous
string or list case where + concatenates; model-creation failure,
model-invocation failure and an exception inside the scoring block return
the fallback score without appending. -/
def evaluate_turn (loads : String → Option JsonObj) (outcome : ModelOutcome)
    (turn_number : Nat) (speaker : String) (scores : List DebateScore) :
    DebateScore × List DebateScore :=
  match outcome with
  | .createError => (createFallbackScore turn_number speaker, scores)
  | .invokeError => (createFallbackScore turn_number speaker, scores)
  | .response content =>
    let ed := parseEvaluationResponse loads content
    match criteriaJsons ed with
    | none => (createFallbackScore turn_number speaker, scores)
    | some (a, b, c, d, e, f, g, h) =>
      match pySumList a [b, c, d, e, f, g, h] with
      | none => (createFallbackScore turn_number speaker, scores)
      | some total =>
        let score : DebateScore :=
          { turn_number := turn_number
            speaker := speaker
            logic_reasoning := asNum a
            evidence_quality := asNum b
            source_credibility := asNum c
            argument_structure := asNum d
            rebuttal_effectiveness := asNum e
            clarity_communication := asNum f
            factual_accuracy := asNum g
            originality := asNum h
            total_score := asNum total
            strengths := getStrList (jsonLookup ed "strengths")
            weaknesses := getStrList (jsonLookup ed "weaknesses")
            specific_feedback := getStr (jsonLookup ed "specific_feedback") }
        (score, scores ++ [score])

/-- JudgeAgent._find_category_winner for one criterion accessor. -/
def findCategoryWinner (scores : List DebateScore) (category : DebateScore → ℚ) : String :=
  let progSum := ((scores.filter (fun s => s.speaker == "progressive")).map category).sum
  let consSum := ((scores.filter (fun s => s.speaker == "conservative")).map category).sum
  let progCount := (scores.filter (fun s => s.speaker == "progressive")).length
  let consCount := (scores.filter (fun s => s.speaker == "conservative")).length
  let progAvg := if progCount > 0 then progSum / progCount else progSum
  let consAvg := if consCount > 0 then consSum / consCount else consSum
  if |progAvg - consAvg| < (0.5 : ℚ) then "tie"
  else if progAvg > consAvg then "progressive" else "conservative"

/-- Quality ladder inlined in JudgeAgent.finalize_judgment. -/
def debateQualityOf (avg : ℚ) : String :=
  if avg ≥ 65 then "excellent"
  else if avg ≥ 55 then "good"
  else if avg ≥ 45 then "fair"
  else "poor"

/-- Criterion name and accessor pairs in the order of the categories list in
JudgeAgent._generate_key_insights. -/
def debateCategories : List (String × (DebateScore → ℚ)) :=
  [("logic_reasoning", fun s => s.logic_reasoning),
   ("evidence_quality", fun s => s.evidence_quality),
   ("source_credibility", fun s => s.source_credibility),
   ("argument_structure", fun s => s.argument_structure),
   ("rebuttal_effectiveness", fun s => s.rebuttal_effectiveness),
   ("clarity_communication", fun s => s.clarity_communication),
   ("factual_accuracy", fun s => s.factual_accuracy),
   ("originality", fun s => s.originality)]

/-- JudgeAgent._generate_key_insights. -/
def generateKeyInsights (scores : List DebateScore) : List String :=
  match scores with
  | [] => []
  | _ =>
    let n : ℚ := scores.length
    let avgs := debateCategories.map (fun c => (c.1, ((scores.map c.2).sum) / n))
    let best := argmaxFirst avgs
    let worst := argminFirst avgs
    let overallAvg := (avgs.map (fun kv => kv.2)).sum / (avgs.length : ℚ)
    let i1 := "Strongest debate aspect: " ++ pyTitle (best.replace "_" " ")
    let i2 := "Area for improvement: " ++ pyTitle (worst.replace "_" " ")
    let i3 :=
      if overallAvg ≥ (7.5 : ℚ) then
        "High-quality debate with strong arguments from both sides"
      else if overallAvg ≥ 6 then
        "Solid debate performance with room for enhancement"
      else
        "Debate would benefit from stronger evidence and clearer reasoning"
    [i1, i2, i3]

/-- JudgeAgent._generate_judge_summary. -/
def generateJudgeSummary (winner : String) (margin : ℚ) (quality : String) : String :=
  let result_text :=
    if winner == "tie" then
      "This debate ended in a tie, with both sides performing comparably (margin: "
        ++ fmt1 margin ++ " points)."
    else
      "The " ++ winner ++ " side won this debate by " ++ fmt1 margin ++ " points."
  let quality_text := "Overall debate quality was " ++ quality ++ "."
  result_text ++ " " ++ quality_text
    ++ " Both participants demonstrated engagement with the topic and made efforts to support their positions."

/-- JudgeAgent._create_default_judgment. -/
def createDefaultJudgment : FinalJudgment :=
  { progressive_total := 0
    conservative_total := 0
    winner := "tie"
    margin := 0
    best_logic := "tie"
    best_evidence := "tie"
    best_communication := "tie"
    best_rebuttals := "tie"
    debate_quality := "fair"
    key_insights := ["Debate evaluation incomplete"]
    judge_summary := "Unable to complete full evaluation due to technical issues." }

/-- JudgeAgent.finalize_judgment over the scores the judge accumulated. -/
def finalize_judgment (scores : List DebateScore) : FinalJudgment :=
  if scores.isEmpty then createDefaultJudgment
  else
    let progressive_total :=
      ((scores.filter (fun s => s.speaker == "progressive")).map (fun s => s.total_score)).sum
    let conservative_total :=
      ((scores.filter (fun s => s.speaker == "conservative")).map (fun s => s.total_score)).sum
    let wm : String × ℚ :=
      if |progressive_total - conservative_total| < 5 then
        ("tie", |progressive_total - conservative_total|)
      else if progressive_total > conservative_total then
        ("progressive", progressive_total - conservative_total)
      else
        ("conservative", conservative_total - progressive_total)
    let avg_total := (progressive_total + conservative_total) / (scores.length : ℚ)
    let quality := debateQualityOf avg_total
    { progressive_total := progressive_total
      conservative_total := conservative_total
      winner := wm.1
      margin := wm.2
      best_logic := findCategoryWinner scores (fun s => s.logic_reasoning)
      best_evidence := findCategoryWinner scores (fun s => s.evidence_quality)
      best_communication := findCategoryWinner scores (fun s => s.clarity_communication)
      best_rebuttals := findCategoryWinner scores (fun s => s.rebuttal_effectiveness)
      debate_quality := quality
      key_insights := generateKeyInsights scores
      judge_summary := generateJudgeSummary wm.1 wm.2 quality }

end JudgeAgent

namespace RapBattleJudge

/-- RapBattleScore dataclass of agentic/agents/rappers/judge.py. -/
structure RapBattleScore where
  round_number : Nat
  rapper : String
  flow_delivery : ℚ
  lyrical_complexity : ℚ
  wordplay_creativity : ℚ
  punchlines_impact : ℚ
  crowd_appeal : ℚ
  battle_tactics : ℚ
  rhyme_scheme : ℚ
  originality : ℚ
  total_score : ℚ
  best_bars : List String
  weaknesses : List String
  judge_comments : String
deriving Repr, DecidableEq

/-- RapBattleJudgment dataclass of agentic/agents/rappers/judge.py. -/
structure RapBattleJudgment where
  rapper1_total : ℚ
  rapper2_total : ℚ
  winner : String
  margin : ℚ
  best_flow : String
  best_wordplay : String
  best_punchlines : String
  best_crowd_appeal : String
  battle_quality : String
  key_moments : List String
  judge_summary : String
deriving Repr, DecidableEq

/-- Required fields checked by RapBattleJudge._parse_evaluation_response. -/
def requiredFields : List String :=
  ["flow_delivery", "lyrical_complexity", "wordplay_creativity",
   "punchlines_impact", "crowd_appeal", "battle_tactics",
   "rhyme_scheme", "originality", "best_bars", "weaknesses", "judge_comments"]

/-- RapBattleJudge._create_fallback_evaluation. -/
def createFallbackEvaluation : JsonObj :=
  [("flow_delivery", .num 6), ("lyrical_complexity", .num 6),
   ("wordplay_creativity", .num 6), ("punchlines_impact", .num 6),
   ("crowd_appeal", .num 6), ("battle_tactics", .num 6),
   ("rhyme_scheme", .num 6), ("originality", .num 6),
   ("best_bars", .arr ["Verse delivered", "Showed up to battle"]),
   ("weaknesses", .arr ["Judge system error", "Could not evaluate properly"]),
   ("judge_comments", .str "Judge evaluation system encountered an error. Default scoring applied.")]

/-- RapBattleJudge._parse_evaluation_response (same extraction and check
structure as the debate judge, with the rap field names). -/
def parseEvaluationResponse (loads : String → Option JsonObj) (content : String) : JsonObj :=
  match extractBraces content with
  | none => createFallbackEvaluation
  | some js =>
    match loads js with
    | none => createFallbackEvaluation
    | some parsed =>
      if requiredFields.all (fun f => jsonHasKey parsed f) then parsed
      else createFallbackEvaluation

/-- RapBattleJudge._create_fallback_score. -/
def createFallbackScore (round_number : Nat) (rapper : String) : RapBattleScore :=
  { round_number := round_number
    rapper := rapper
    flow_delivery := 6
    lyrical_complexity := 6
    wordplay_creativity := 6
    punchlines_impact := 6
    crowd_appeal := 6
    battle_tactics := 6
    rhyme_scheme := 6
    originality := 6
    total_score := 48
    best_bars := ["Participated in battle", "Delivered verse"]
    weaknesses := ["Judge system error"]
    judge_comments := "Judge evaluation system encountered an error. Default scoring applied." }

/-- Reads of the eight rap criterion values, in the order the Python total
is computed. -/
def criteriaJsons (o : JsonObj) :
    Option (Json × Json × Json × Json × Json × Json × Json × Json) := do
  let a ← jsonLookup o "flow_delivery"
  let b ← jsonLookup o "lyrical_complexity"
  let c ← jsonLookup o "wordplay_creativity"
  let d ← jsonLookup o "punchlines_impact"
  let e ← jsonLookup o "crowd_appeal"
  let f ← jsonLookup o "battle_tactics"
  let g ← jsonLookup o "rhyme_scheme"
  let h ← jsonLookup o "originality"
  pure (a, b, c, d, e, f, g, h)

/-- Python total of the eight rap criterion values, with the same success
condition as the debate judge: all numbers, or homogeneous strings or lists
under concatenation. -/
def criteriaSum (o : JsonObj) : Option Json :=
  match criteriaJsons o with
  | none => none
  | some (a, b, c, d, e, f, g, h) => pySumList a [b, c, d, e, f, g, h]

/-- RapBattleJudge.evaluate_round, as a function of the model outcome; the
pair is (returned score, scores list owned by the judge after the call).
Appending happens exactly when the Python sum of the eight criterion values
succeeds, as in evaluate_turn. -/
def evaluate_round (loads : String → Option JsonObj) (outcome : ModelOutcome)
    (round_number : Nat) (rapper : String) (scores : List RapBattleScore) :
    RapBattleScore × List RapBattleScore :=
  match outcome with
  | .createError => (createFallbackScore round_number rapper, scores)
  | .invokeError => (createFallbackScore round_number rapper, scores)
  | .response content =>
    let ed := parseEvaluationResponse loads content
    match criteriaJsons ed with
    | none => (createFallbackScore round_number rapper, scores)
    | some (a, b, c, d, e, f, g, h) =>
      match pySumList a [b, c, d, e, f, g, h] with
      | none => (createFallbackScore round_number rapper, scores)
      | some total =>
        let score : RapBattleScore :=
          { round_number := round_number
            rapper := rapper
            flow_delivery := asNum a
            lyrical_complexity := asNum b
            wordplay_creativity := asNum c
            punchlines_impact := asNum d
            crowd_appeal := asNum e
            battle_tactics := asNum f
            rhyme_scheme := asNum g
            originality := asNum h
            total_score := asNum total
            best_bars := getStrList (jsonLookup ed "best_bars")
            weaknesses := getStrList (jsonLookup ed "weaknesses")
            judge_comments := getStr (jsonLookup ed "judge_comments") }
        (score, scores ++ [score])

/-- RapBattleJudge._find_category_winner. -/
def findCategoryWinner (scores : List RapBattleScore) (category : RapBattleScore → ℚ)
    (rapper1 rapper2 : String) : String :=
  let sum1 := ((scores.filter (fun s => s.rapper == rapper1)).map category).sum
  let sum2 := ((scores.filter (fun s => s.rapper == rapper2)).map category).sum
  let count1 := (scores.filter (fun s => s.rapper == rapper1)).length
  let count2 := (scores.filter (fun s => s.rapper == rapper2)).length
  let avg1 := if count1 > 0 then sum1 / count1 else sum1
  let avg2 := if count2 > 0 then sum2 / count2 else sum2
  if |avg1 - avg2| < (0.5 : ℚ) then "tie"
  else if avg1 > avg2 then rapper1 else rapper2

/-- Quality ladder inlined in RapBattleJudge.finalize_judgment. -/
def battleQualityOf (avg : ℚ) : String :=
  if avg ≥ 70 then "legendary"
  else if avg ≥ 60 then "fire"
  else if avg ≥ 50 then "solid"
  else "weak"

/-- RapBattleJudge._generate_key_moments.  Python max with a key function
returns the first maximal element. -/
def generateKeyMoments (scores : List RapBattleScore) : List String :=
  match scores with
  | [] => []
  | s0 :: rest =>
    let best := rest.foldl (fun best y => if y.total_score > best.total_score then y else best) s0
    let m1 := "Round " ++ toString best.round_number ++ ": " ++ best.rapper
      ++ "\x27s dominant performance (" ++ fmt1 best.total_score ++ "/80)"
    let m2 :=
      match (s0 :: rest).find? (fun s => !s.best_bars.isEmpty) with
      | some s =>
        match s.best_bars with
        | b :: _ => [s.rapper ++ "\x27s best bar: \x22" ++ b ++ "\x22"]
        | [] => []
      | none => []
    (m1 :: m2).take 3

/-- RapBattleJudge._generate_judge_summary. -/
def generateJudgeSummary (winner : String) (margin : ℚ) (quality : String)
    (rapper1 rapper2 : String) : String :=
  let result_text :=
    if winner == "tie" then
      "This battle was too close to call - both " ++ rapper1 ++ " and " ++ rapper2
        ++ " brought their A-game (margin: " ++ fmt1 margin ++ " points)."
    else
      winner ++ " takes this battle with a " ++ fmt1 margin ++ " point margin."
  let quality_text := "Overall battle quality was " ++ quality ++ "."
  result_text ++ " " ++ quality_text
    ++ " Both rappers showed skills and brought entertainment value to the cypher."

/-- RapBattleJudge._create_default_judgment. -/
def createDefaultJudgment : RapBattleJudgment :=
  { rapper1_total := 0
    rapper2_total := 0
    winner := "tie"
    margin := 0
    best_flow := "tie"
    best_wordplay := "tie"
    best_punchlines := "tie"
    best_crowd_appeal := "tie"
    battle_quality := "incomplete"
    key_moments := ["Battle evaluation incomplete"]
    judge_summary := "Unable to complete full battle evaluation due to technical issues." }

/-- RapBattleJudge.finalize_judgment. -/
def finalize_judgment (rapper1 rapper2 : String) (scores : List RapBattleScore) :
    RapBattleJudgment :=
  if scores.isEmpty then createDefaultJudgment
  else
    let rapper1_total :=
      ((scores.filter (fun s => s.rapper == rapper1)).map (fun s => s.total_score)).sum
    let rapper2_total :=
      ((scores.filter (fun s => s.rapper == rapper2)).map (fun s => s.total_score)).sum
    let wm : String × ℚ :=
      if |rapper1_total - rapper2_total| < 3 then
        ("tie", |rapper1_total - rapper2_total|)
      else if rapper1_total > rapper2_total then
        (rapper1, rapper1_total - rapper2_total)
      else
        (rapper2, rapper2_total - rapper1_total)
    let avg_total := (rapper1_total + rapper2_total) / (scores.length : ℚ)
    let quality := battleQualityOf avg_total
    { rapper1_total := rapper1_total
      rapper2_total := rapper2_total
      winner := wm.1
      margin := wm.2
      best_flow := findCategoryWinner scores (fun s => s.flow_delivery) rapper1 rapper2
      best_wordplay := findCategoryWinner scores (fun s => s.wordplay_creativity) rapper1 rapper2
      best_punchlines := findCategoryWinner scores (fun s => s.punchlines_impact) rapper1 rapper2
      best_crowd_appeal := findCategoryWinner scores (fun s => s.crowd_appeal) rapper1 rapper2
      battle_quality := quality
      key_moments := generateKeyMoments scores
      judge_summary := generateJudgeSummary wm.1 wm.2 quality rapper1 rapper2 }

end RapBattleJudge

/-- Loosely typed Python values carried in tool-call argument mappings. -/
inductive PyVal where
  | str (s : String)
  | num (q : ℚ)
  | dict (kvs : List (String × PyVal))
deriving Repr

namespace ToolArgumentFilter

/-- ToolArgumentFilter.PROBLEMATIC_PARAMS, in source order. -/
def PROBLEMATIC_PARAMS : List String :=
  ["index", "step", "order", "position", "id", "number", "sequence",
   "count", "rank", "priority", "level", "stage", "phase", "iteration",
   "turn", "round", "cycle", "attempt", "try", "run", "execution",
   "call_id", "request_id", "session_id", "timestamp", "time",
   "task_id", "process_id", "batch_id", "job_id", "thread_id"]

/-- ToolArgumentFilter.TOOL_SPECIFIC_PARAMS. -/
def TOOL_SPECIFIC_PARAMS : List (String × List String) :=
  [("search_web", ["query", "search_query", "q", "input", "text"]),
   ("search_wikipedia", ["query", "search_query", "q", "input", "text"]),
   ("crawl4ai_competitor_analysis",
     ["competitor_urls", "niche", "extract_social_media", "extract_content_themes"]),
   ("offline_competitor_analysis", ["competitor_urls", "niche"]),
   ("strategy_generator", ["niche", "target_audience", "content_goals"])]

/-- ToolArgumentFilter.COMMON_PARAMS. -/
def COMMON_PARAMS : List String :=
  ["query", "input", "text", "question", "search_query", "q",
   "competitor_urls", "niche", "target_audience", "content_goals",
   "extract_social_media", "extract_content_themes",
   "max_results", "limit", "url", "urls", "data"]

/-- ToolArgumentFilter._is_reasonable_parameter.  Python str.isalpha is false
on the empty string, hence the explicit non-emptiness conjunct; alphabetic is
read as ASCII-alphabetic, which covers every parameter name in the source. -/
def isReasonableParameter (p : String) : Bool :=
  if p.length < 2 then false
  else if p.toLower.endsWith "_id" then false
  else if !((p.replace "_" "").length > 0 && (p.replace "_" "").toList.all Char.isAlpha)
    then false
  else if ["temp", "tmp", "debug", "test"].contains p.toLower then false
  else true

/-- ToolArgumentFilter.filter_arguments.  The expected_params argument stands
for the result of _get_expected_parameters on the tool schema (an external
pydantic introspection); the empty list models a tool without a usable
schema, matching the Python truthiness test on the set. -/
def filter_arguments (expected_params : List String) (tool_name : String)
    (tool_args : PyVal) : PyVal :=
  match tool_args with
  | .dict kvs =>
    let filtered := kvs.filter (fun kv => !(PROBLEMATIC_PARAMS.contains kv.1))
    let clean :=
      if !expected_params.isEmpty then
        filtered.filter (fun kv => expected_params.contains kv.1)
      else
        let allowed :=
          ((TOOL_SPECIFIC_PARAMS.find? (fun e => e.1 == tool_name)).map
            (fun e => e.2)).getD COMMON_PARAMS
        filtered.filter (fun kv => allowed.contains kv.1)
    let clean2 :=
      if clean.isEmpty && !filtered.isEmpty then
        filtered.filter (fun kv => isReasonableParameter kv.1)
      else clean
    .dict clean2
  | v => v

end ToolArgumentFilter

/-- Exceptions a tool callable may raise: Python TypeError (the only class the
inner retry in execute_tool_call catches) versus anything else. -/
inductive PyExn where
  | typeError (msg : String)
  | other (msg : String)
deriving Repr, DecidableEq

/-- Message text of an exception (Python str(e)). -/
def PyExn.msg : PyExn → String
  | .typeError m => m
  | .other m => m

/-- Registered tool: name, the declared schema field names (empty when the
schema is absent or empty, matching the Python truthiness test), and the
callable, which either returns a result or raises. -/
structure Tool where
  name : String
  expected_params : List String
  invoke : PyVal → Except PyExn String

/-- Tool-call request shapes handled by execute_tool_call: an object with a
name attribute, a dict with name and args entries (name is the empty string
when the key is absent), or any other value (invalid format, carrying its
type name for the error text). -/
inductive ToolCallRepr where
  | obj (name : String) (args : PyVal) (id : Option String)
  | dict (name : String) (args : PyVal) (id : Option String)
  | invalid (typeName : String)
deriving Repr

namespace BaseStreamingAgent

/-- Common parameter names used as the filtering fallback inside
execute_tool_call when the tool schema is not introspectable. -/
def commonParams : List String := ["query", "input", "text", "question", "search_query"]

/-- Argument filtering inside execute_tool_call: keep the schema-declared
parameter names when the schema yields a non-empty set, otherwise keep only
the common parameter names. -/
def cleanArgs (tool : Tool) (kvs : List (String × PyVal)) : List (String × PyVal) :=
  if !tool.expected_params.isEmpty then
    kvs.filter (fun kv => tool.expected_params.contains kv.1)
  else
    kvs.filter (fun kv => commonParams.contains kv.1)

/-- Try block of execute_tool_call after the tool lookup: filter the argument
dict, prefer a bare single value (retrying with the keyword dict on a
TypeError), pass the original dict when filtering removed everything, pass
the cleaned dict for multiple parameters, and pass non-dict arguments
directly. -/
def dispatchInvoke (tool : Tool) (tool_name : String) (tool_args : PyVal) :
    Except PyExn String :=
  match tool_args with
  | .dict kvs =>
    match cleanArgs tool kvs with
    | [kv] =>
      if tool_name == "search_web" && (kv.1 == "query" || kv.1 == "search_query") then
        tool.invoke kv.2
      else
        match tool.invoke kv.2 with
        | .error (.typeError _) => tool.invoke (.dict [kv])
        | r => r
    | [] => tool.invoke (.dict kvs)
    | kv1 :: kv2 :: rest => tool.invoke (.dict (kv1 :: kv2 :: rest))
  | v => tool.invoke v

/-- BaseStreamingAgent.execute_tool_call.  The tools argument stands for
get_tools_for_agents(); the listing of known names in the unknown-tool error
renders the name list with the Lean ToString (the Python repr of a string
list differs only in quoting). -/
def execute_tool_call (tools : List Tool) (tool_call : ToolCallRepr) : String :=
  match tool_call with
  | .invalid typeName => "Error: Invalid tool call format: " ++ typeName
  | .obj tool_name tool_args _ | .dict tool_name tool_args _ =>
    if tool_name == "" then "Error: Tool name not found in tool call"
    else
      match tools.find? (fun t => t.name == tool_name) with
      | none =>
        "Error: Tool \x27" ++ tool_name ++ "\x27 not found. Available tools: "
          ++ toString (tools.map (fun t => t.name))
      | some tool =>
        match dispatchInvoke tool tool_name tool_args with
        | .ok r => r
        | .error e =>
          let base := "Error executing tool \x27" ++ tool_name ++ "\x27: " ++ e.msg
          match tool_args with
          | .dict kvs =>
            if kvs.any (fun kv => kv.1 == "index") then
              base ++ " (Note: Removed unexpected \x27index\x27 parameter from tool call)"
            else base
          | _ => base

end BaseStreamingAgent

namespace DebateAI

/-- Transcript messages (langchain HumanMessage, AIMessage with optional
tool_calls, ToolMessage). -/
inductive Message where
  | human (content : String)
  | ai (content : String) (tool_calls : List ToolCallRepr)
  | tool (content : String) (tool_call_id : String)
deriving Repr

/-- ChatState threaded through the streaming debate loop. -/
structure ChatState where
  messages : List Message
  current_speaker : String
  conversation_count : Nat
  max_turns : Nat

/-- Chunks produced by the streaming model: a text fragment with non-empty
content, or a chunk carrying tool-call requests (either attribute form of the
source collapses to the list it contributes). -/
inductive Chunk where
  | text (s : String)
  | toolCalls (tcs : List ToolCallRepr)

/-- What the external model did during one stream_response call: a
create_model_instance ValueError, the chunks consumed before a possible
mid-stream exception, and the same for the follow-up stream issued after tool
execution. -/
structure StreamOutcome where
  initError : Option String
  chunks : List Chunk
  streamError : Option String
  finalChunks : List Chunk
  finalStreamError : Option String

/-- Configuration of a streaming agent relevant to the loop: its display name
and the side that speaks next.  Persona text only feeds the external model
and is therefore not represented. -/
structure AgentCfg where
  speaker_name : String
  next_speaker : String

/-- Text accumulated over the consumed chunks (chunk.content appended in
order). -/
def accumText (chunks : List Chunk) : String :=
  chunks.foldl (fun acc c => match c with | .text s => acc ++ s | _ => acc) ""

/-- Tool calls collected over the consumed chunks (extend in order).  The
collected list survives a mid-stream exception, as in the source. -/
def collectToolCalls (chunks : List Chunk) : List ToolCallRepr :=
  chunks.foldl (fun acc c => match c with | .toolCalls tcs => acc ++ tcs | _ => acc) []

/-- Content the source assigns on a mid-stream exception, replacing the
accumulated text. -/
def streamErrorText (e : String) : String :=
  "Error occurred during response generation: " ++ e

/-- Content the source assigns when the follow-up stream fails. -/
def finalErrorText (e : String) : String :=
  "Error occurred during final response: " ++ e

/-- Identifier attached to a tool-result message: the id of the originating
call, or the generated tool_call_N fallback from the current message count. -/
def toolId (tc : ToolCallRepr) (numMessages : Nat) : String :=
  match tc with
  | .obj _ _ (some i) => i
  | .dict _ _ (some i) => i
  | .obj _ _ none => "tool_call_" ++ toString numMessages
  | .dict _ _ none => "tool_call_" ++ toString numMessages
  | .invalid _ => ""

/-- Tool-execution segment of stream_response: each captured call, in order,
is dispatched through execute_tool_call and its result appended as a tool
message; malformed calls are skipped with a warning. -/
def runToolCalls (tools : List Tool) (tcs : List ToolCallRepr) (msgs : List Message) :
    List Message :=
  tcs.foldl (fun ms tc =>
    match tc with
    | .invalid _ => ms
    | _ =>
      let tid := toolId tc ms.length
      let result := BaseStreamingAgent.execute_tool_call tools tc
      ms ++ [.tool result tid]) msgs

/-- BaseStreamingAgent.stream_response as a state transformer.  The generator
in the source yields exactly one final state per call (the early error state
or the normal final state); prompt construction is omitted because its only
consumer is the external model, which the outcome argument abstracts. -/
def stream_response (agent : AgentCfg) (tools : List Tool) (with_tools : Bool)
    (outcome : StreamOutcome) (state : ChatState) : ChatState :=
  match outcome.initError with
  | some e =>
    { messages := state.messages ++ [.ai ("Error: " ++ e) []]
      current_speaker := agent.next_speaker
      conversation_count := state.conversation_count + 1
      max_turns := state.max_turns }
  | none =>
    let accumulated_content :=
      match outcome.streamError with
      | some e => streamErrorText e
      | none => accumText outcome.chunks
    let tool_calls := collectToolCalls outcome.chunks
    let new_messages :=
      if !tool_calls.isEmpty && with_tools then
        let ms1 := state.messages ++ [.ai accumulated_content tool_calls]
        let ms2 := runToolCalls tools tool_calls ms1
        let final_accumulated :=
          match outcome.finalStreamError with
          | some e => finalErrorText e
          | none => accumText outcome.finalChunks
        ms2 ++ [.ai final_accumulated []]
      else
        state.messages ++ [.ai accumulated_content []]
    { messages := new_messages
      current_speaker := agent.next_speaker
      conversation_count := state.conversation_count + 1
      max_turns := state.max_turns }

/-- Left streaming agent configuration (LeftAgent and CustomLeftAgent both
pass next_speaker right). -/
def leftAgentCfg : AgentCfg := { speaker_name := "Progressive Perspective", next_speaker := "right" }

/-- Modelled from the spec: the streaming right agent class created by
create_right_agent is not in the source tree (only its caller in graph.py and
an older non-streaming right_agent_response, which hands the turn back with
current_speaker left).  Per the alternation contract it is the mirror of the
left agent, with next_speaker left. -/
def rightAgentCfg : AgentCfg := { speaker_name := "Conservative Perspective", next_speaker := "left" }

/-- Turn loop of run_streaming_debate.  The while loop runs until
conversation_count reaches max_turns; since every stream_response call
increments the count by exactly one, the remaining-turn count is structural
fuel.  The second component records current_speaker at the start of each
executed turn, in order. -/
def debateLoop (tools : List Tool) (with_tools : Bool)
    (outcomes : Nat → StreamOutcome) : Nat → ChatState → ChatState × List String
  | 0, st => (st, [])
  | fuel + 1, st =>
    if st.conversation_count < st.max_turns then
      let agent := if st.current_speaker == "left" then leftAgentCfg else rightAgentCfg
      let st2 := stream_response agent tools with_tools (outcomes st.conversation_count) st
      let r := debateLoop tools with_tools outcomes fuel st2
      (r.1, st.current_speaker :: r.2)
    else (st, [])

/-- run_streaming_debate of debateai/graph.py: initial state has the seed
prompt as the only message, current_speaker left and conversation_count 0;
the loop then runs the turns.  The constructed prompt text is a parameter
because it only feeds the external model. -/
def run_streaming_debate (initial_prompt : String) (tools : List Tool)
    (with_tools : Bool) (outcomes : Nat → StreamOutcome) (max_turns : Nat) :
    ChatState × List String :=
  debateLoop tools with_tools outcomes max_turns
    { messages := [.human initial_prompt]
      current_speaker := "left"
      conversation_count := 0
      max_turns := max_turns }

end DebateAI

/-! Theorems.  Each claim is stated over the embedded definitions above. -/

/-- Winner and margin contract of JudgeAgent.finalize_judgment on a non-empty
score list, phrased over the per-side totals. -/
def debateWinnerSpec (scores : List JudgeAgent.DebateScore) : Prop :=
  let pt := ((scores.filter (fun s => s.speaker == "progressive")).map
    (fun s => s.total_score)).sum
  let ct := ((scores.filter (fun s => s.speaker == "conservative")).map
    (fun s => s.total_score)).sum
  let j := JudgeAgent.finalize_judgment scores
  j.progressive_total = pt ∧ j.conservative_total = ct ∧
  (|pt - ct| < 5 → j.winner = "tie" ∧ j.margin = |pt - ct|) ∧
  (¬ |pt - ct| < 5 →
    (pt > ct → j.winner = "progressive" ∧ j.margin = pt - ct ∧ 0 < j.margin) ∧
    (ct > pt → j.winner = "conservative" ∧ j.margin = ct - pt ∧ 0 < j.margin))

/-- Winner and margin contract of RapBattleJudge.finalize_judgment on a
non-empty score list. -/
def rapWinnerSpec (rapper1 rapper2 : String) (scores : List RapBattleJudge.RapBattleScore) :
    Prop :=
  let t1 := ((scores.filter (fun s => s.rapper == rapper1)).map (fun s => s.total_score)).sum
  let t2 := ((scores.filter (fun s => s.rapper == rapper2)).map (fun s => s.total_score)).sum
  let j := RapBattleJudge.finalize_judgment rapper1 rapper2 scores
  j.rapper1_total = t1 ∧ j.rapper2_total = t2 ∧
  (|t1 - t2| < 3 → j.winner = "tie" ∧ j.margin = |t1 - t2|) ∧
  (¬ |t1 - t2| < 3 →
    (t1 > t2 → j.winner = rapper1 ∧ j.margin = t1 - t2 ∧ 0 < j.margin) ∧
    (t2 > t1 → j.winner = rapper2 ∧ j.margin = t2 - t1 ∧ 0 < j.margin))

/-- C1: for every finalize call on a non-empty score list, a total difference
strictly below the tie threshold (5 for the structured debate judge, 3 for
the rap battle judge) yields winner tie with margin equal to the absolute
difference; otherwise the winner is the side with the strictly higher total
and the margin is the positive difference of the totals. -/
theorem C1_finalize_winner_margin (scores : List JudgeAgent.DebateScore)
    (rscores : List RapBattleJudge.RapBattleScore) (rapper1 rapper2 : String)
    (hs : scores ≠ []) (hr : rscores ≠ []) :
    debateWinnerSpec scores ∧ rapWinnerSpec rapper1 rapper2 rscores := by
  constructor
  · have h1 : scores.isEmpty = false := by
      simpa [List.isEmpty_iff] using hs
    unfold debateWinnerSpec JudgeAgent.finalize_judgment
    rw [h1]
    simp only [Bool.false_eq_true, if_false]
    refine ⟨by simp, by simp, ?_, ?_⟩
    · intro hlt
      simp only [if_pos hlt]
      exact ⟨by simp, by simp⟩
    · intro hge
      constructor
      · intro hgt
        simp only [if_neg hge, if_pos hgt]
        exact ⟨by simp, by simp, by linarith⟩
      · intro hgt
        have hng : ¬ (((scores.filter (fun s => s.speaker == "progressive")).map
            (fun s => s.total_score)).sum >
            ((scores.filter (fun s => s.speaker == "conservative")).map
            (fun s => s.total_score)).sum) := by linarith
        simp only [if_neg hge, if_neg hng]
        exact ⟨by simp, by simp, by linarith⟩
  · have h1 : rscores.isEmpty = false := by
      simpa [List.isEmpty_iff] using hr
    unfold rapWinnerSpec RapBattleJudge.finalize_judgment
    rw [h1]
    simp only [Bool.false_eq_true, if_false]
    refine ⟨by simp, by simp, ?_, ?_⟩
    · intro hlt
      simp only [if_pos hlt]
      exact ⟨by simp, by simp⟩
    · intro hge
      constructor
      · intro hgt
        simp only [if_neg hge, if_pos hgt]
        exact ⟨by simp, by simp, by linarith⟩
      · intro hgt
        have hng : ¬ (((rscores.filter (fun s => s.rapper == rapper1)).map
            (fun s => s.total_score)).sum >
            ((rscores.filter (fun s => s.rapper == rapper2)).map
            (fun s => s.total_score)).sum) := by linarith
        simp only [if_neg hge, if_neg hng]
        exact ⟨by simp, by simp, by linarith⟩

/-- Sample progressive-side score with total 40, used to instantiate the
finalize contract at the totals from the testable-properties section. -/
def sampleProgScore : JudgeAgent.DebateScore :=
  { turn_number := 1
    speaker := "progressive"
    logic_reasoning := 5
    evidence_quality := 5
    source_credibility := 5
    argument_structure := 5
    rebuttal_effectiveness := 5
    clarity_communication := 5
    factual_accuracy := 5
    originality := 5
    total_score := 40
    strengths := []
    weaknesses := []
    specific_feedback := "" }

/-- Sample conservative-side score with total 43. -/
def sampleConsScore : JudgeAgent.DebateScore :=
  { sampleProgScore with speaker := "conservative", total_score := 43 }

/-- Sample rap score for rapper Kendrick with total 40. -/
def sampleRap1Score : RapBattleJudge.RapBattleScore :=
  { round_number := 1
    rapper := "Kendrick"
    flow_delivery := 5
    lyrical_complexity := 5
    wordplay_creativity := 5
    punchlines_impact := 5
    crowd_appeal := 5
    battle_tactics := 5
    rhyme_scheme := 5
    originality := 5
    total_score := 40
    best_bars := []
    weaknesses := []
    judge_comments := "" }

/-- Sample rap score for rapper Biggie with total 50. -/
def sampleRap2Score : RapBattleJudge.RapBattleScore :=
  { sampleRap1Score with rapper := "Biggie", total_score := 50 }

/-- Witness for C1 at the concrete totals 40 versus 43 (debate) and 40 versus
50 (rap battle). -/
theorem C1_finalize_winner_margin_witness :
    [sampleProgScore, sampleConsScore] ≠ [] ∧
    [sampleRap1Score, sampleRap2Score] ≠ [] ∧
    debateWinnerSpec [sampleProgScore, sampleConsScore] ∧
    rapWinnerSpec "Kendrick" "Biggie" [sampleRap1Score, sampleRap2Score] :=
  ⟨by simp, by simp,
   (C1_finalize_winner_margin [sampleProgScore, sampleConsScore]
     [sampleRap1Score, sampleRap2Score] "Kendrick" "Biggie" (by simp) (by simp)).1,
   (C1_finalize_winner_margin [sampleProgScore, sampleConsScore]
     [sampleRap1Score, sampleRap2Score] "Kendrick" "Biggie" (by simp) (by simp)).2⟩

/-- Failure of the JSON-extraction and required-field stage for a given field
list, loads function and raw content: no brace pair, or json.loads failing on
the extracted substring, or a required field absent from the parsed object.
This is exactly the condition under which _parse_evaluation_response returns
the fallback evaluation. -/
def jsonParseFails (req : List String) (loads : String → Option JsonObj)
    (content : String) : Bool :=
  match extractBraces content with
  | none => true
  | some js =>
    match loads js with
    | none => true
    | some parsed => !(req.all (fun f => jsonHasKey parsed f))

/-- Parse failure sends the debate judge parser to its fallback evaluation. -/
theorem debate_parse_failed_eq (loads : String → Option JsonObj) (content : String)
    (h : jsonParseFails JudgeAgent.requiredFields loads content = true) :
    JudgeAgent.parseEvaluationResponse loads content = JudgeAgent.createFallbackEvaluation := by
  unfold jsonParseFails at h
  unfold JudgeAgent.parseEvaluationResponse
  cases hx : extractBraces content with
  | none => simp only [hx]
  | some js =>
    simp only [hx] at h ⊢
    cases hy : loads js with
    | none => simp only [hy]
    | some parsed =>
      simp only [hy] at h ⊢
      simp only [Bool.not_eq_true'] at h
      rw [if_neg (by simp [h])]

/-- Parse failure sends the rap judge parser to its fallback evaluation. -/
theorem rap_parse_failed_eq (loads : String → Option JsonObj) (content : String)
    (h : jsonParseFails RapBattleJudge.requiredFields loads content = true) :
    RapBattleJudge.parseEvaluationResponse loads content
      = RapBattleJudge.createFallbackEvaluation := by
  unfold jsonParseFails at h
  unfold RapBattleJudge.parseEvaluationResponse
  cases hx : extractBraces content with
  | none => simp only [hx]
  | some js =>
    simp only [hx] at h ⊢
    cases hy : loads js with
    | none => simp only [hy]
    | some parsed =>
      simp only [hy] at h ⊢
      simp only [Bool.not_eq_true'] at h
      rw [if_neg (by simp [h])]

/-- Criterion values of the debate fallback evaluation. -/
theorem debate_fallback_criteria :
    JudgeAgent.criteriaJsons JudgeAgent.createFallbackEvaluation
      = some (.num 6, .num 6, .num 6, .num 6, .num 6, .num 6, .num 6, .num 6) := rfl

/-- Criterion values of the rap fallback evaluation. -/
theorem rap_fallback_criteria :
    RapBattleJudge.criteriaJsons RapBattleJudge.createFallbackEvaluation
      = some (.num 6, .num 6, .num 6, .num 6, .num 6, .num 6, .num 6, .num 6) := rfl

/-- Python total of eight numeric sixes, as both fallback evaluations sum. -/
theorem fallback_sum_48 :
    pySumList (Json.num 6) [.num 6, .num 6, .num 6, .num 6, .num 6, .num 6, .num 6]
      = some (.num 48) := by
  norm_num [pySumList, pyAdd]

/-- All eight debate criteria of a score equal 6. -/
def debateCriteriaAllSix (s : JudgeAgent.DebateScore) : Prop :=
  s.logic_reasoning = 6 ∧ s.evidence_quality = 6 ∧ s.source_credibility = 6 ∧
  s.argument_structure = 6 ∧ s.rebuttal_effectiveness = 6 ∧ s.clarity_communication = 6 ∧
  s.factual_accuracy = 6 ∧ s.originality = 6

/-- All eight rap criteria of a score equal 6. -/
def rapCriteriaAllSix (s : RapBattleJudge.RapBattleScore) : Prop :=
  s.flow_delivery = 6 ∧ s.lyrical_complexity = 6 ∧ s.wordplay_creativity = 6 ∧
  s.punchlines_impact = 6 ∧ s.crowd_appeal = 6 ∧ s.battle_tactics = 6 ∧
  s.rhyme_scheme = 6 ∧ s.originality = 6

/-- C3: for every judge model response without a parseable JSON object or
with a required field missing, the per-turn evaluation returns a score whose
eight criteria all equal 6 with total 48 and fixed placeholder feedback; the
same fallback numbers are returned when model invocation itself fails. -/
theorem C3_fallback_determinism (loads loads2 : String → Option JsonObj)
    (content content2 : String) (n n2 : Nat) (sp rp : String)
    (ds : List JudgeAgent.DebateScore) (rs : List RapBattleJudge.RapBattleScore)
    (h : jsonParseFails JudgeAgent.requiredFields loads content = true)
    (h2 : jsonParseFails RapBattleJudge.requiredFields loads2 content2 = true) :
    (debateCriteriaAllSix (JudgeAgent.evaluate_turn loads (.response content) n sp ds).1 ∧
     (JudgeAgent.evaluate_turn loads (.response content) n sp ds).1.total_score = 48 ∧
     (JudgeAgent.evaluate_turn loads (.response content) n sp ds).1.specific_feedback
       = "Evaluation system encountered an error. Default scoring applied.") ∧
    (debateCriteriaAllSix (JudgeAgent.evaluate_turn loads .invokeError n sp ds).1 ∧
     (JudgeAgent.evaluate_turn loads .invokeError n sp ds).1.total_score = 48 ∧
     (JudgeAgent.evaluate_turn loads .invokeError n sp ds).1.specific_feedback
       = "Judge evaluation system encountered an error. Default scoring applied.") ∧
    (rapCriteriaAllSix (RapBattleJudge.evaluate_round loads2 (.response content2) n2 rp rs).1 ∧
     (RapBattleJudge.evaluate_round loads2 (.response content2) n2 rp rs).1.total_score = 48 ∧
     (RapBattleJudge.evaluate_round loads2 (.response content2) n2 rp rs).1.judge_comments
       = "Judge evaluation system encountered an error. Default scoring applied.") ∧
    (rapCriteriaAllSix (RapBattleJudge.evaluate_round loads2 .invokeError n2 rp rs).1 ∧
     (RapBattleJudge.evaluate_round loads2 .invokeError n2 rp rs).1.total_score = 48 ∧
     (RapBattleJudge.evaluate_round loads2 .invokeError n2 rp rs).1.judge_comments
       = "Judge evaluation system encountered an error. Default scoring applied.") := by
  refine ⟨?_, ?_, ?_, ?_⟩
  · have he := debate_parse_failed_eq loads content h
    simp only [JudgeAgent.evaluate_turn, he, debate_fallback_criteria, fallback_sum_48,
      debateCriteriaAllSix]
    norm_num [JudgeAgent.createFallbackEvaluation, jsonLookup, getStr, asNum]
    rfl
  · simp only [JudgeAgent.evaluate_turn, JudgeAgent.createFallbackScore, debateCriteriaAllSix]
    norm_num
  · have he := rap_parse_failed_eq loads2 content2 h2
    simp only [RapBattleJudge.evaluate_round, he, rap_fallback_criteria, fallback_sum_48,
      rapCriteriaAllSix]
    norm_num [RapBattleJudge.createFallbackEvaluation, jsonLookup, getStr, asNum]
    rfl
  · simp only [RapBattleJudge.evaluate_round, RapBattleJudge.createFallbackScore,
      rapCriteriaAllSix]
    norm_num

/-- Witness for C3 at content not json (no brace pair) and a loads function
that always fails. -/
theorem C3_fallback_determinism_witness :
    jsonParseFails JudgeAgent.requiredFields (fun _ => none) "not json" = true ∧
    jsonParseFails RapBattleJudge.requiredFields (fun _ => none) "not json" = true ∧
    (debateCriteriaAllSix
      (JudgeAgent.evaluate_turn (fun _ => none) (.response "not json") 1 "progressive" []).1 ∧
     (JudgeAgent.evaluate_turn (fun _ => none) (.response "not json") 1 "progressive" []).1.total_score = 48 ∧
     (JudgeAgent.evaluate_turn (fun _ => none) (.response "not json") 1 "progressive" []).1.specific_feedback
       = "Evaluation system encountered an error. Default scoring applied.") :=
  ⟨by decide, by decide,
   (C3_fallback_determinism (fun _ => none) (fun _ => none) "not json" "not json"
     1 1 "progressive" "Kendrick" [] [] (by decide) (by decide)).1⟩

/-- C5 counterexample: the default verdict returned on an empty score list
does not carry the lowest non-error tier of the quality ladder.  The debate
ladder bottoms out at poor and the battle ladder at weak, but the defaults
are fair and incomplete respectively. -/
theorem C5_counterexample :
    (JudgeAgent.finalize_judgment []).debate_quality = "fair" ∧
    JudgeAgent.debateQualityOf 0 = "poor" ∧
    (JudgeAgent.finalize_judgment []).debate_quality ≠ "poor" ∧
    (RapBattleJudge.finalize_judgment "Kendrick" "Biggie" []).battle_quality = "incomplete" ∧
    RapBattleJudge.battleQualityOf 0 = "weak" ∧
    (RapBattleJudge.finalize_judgment "Kendrick" "Biggie" []).battle_quality ≠ "weak" := by
  refine ⟨rfl, ?_, by decide, rfl, ?_, by decide⟩
  · norm_num [JudgeAgent.debateQualityOf]
  · norm_num [RapBattleJudge.battleQualityOf]

/-- C5 as amended: finalize on an empty score list returns (never raises) a
complete default verdict with both totals 0, winner tie, margin 0 and all
four category winners tie; its quality field is the fixed default fair for
the debate judge and incomplete for the rap battle judge, not the lowest tier
of the quality ladder. -/
theorem C5_empty_default (rapper1 rapper2 : String) :
    (JudgeAgent.finalize_judgment [] = JudgeAgent.createDefaultJudgment ∧
     (JudgeAgent.finalize_judgment []).progressive_total = 0 ∧
     (JudgeAgent.finalize_judgment []).conservative_total = 0 ∧
     (JudgeAgent.finalize_judgment []).winner = "tie" ∧
     (JudgeAgent.finalize_judgment []).margin = 0 ∧
     (JudgeAgent.finalize_judgment []).best_logic = "tie" ∧
     (JudgeAgent.finalize_judgment []).best_evidence = "tie" ∧
     (JudgeAgent.finalize_judgment []).best_communication = "tie" ∧
     (JudgeAgent.finalize_judgment []).best_rebuttals = "tie" ∧
     (JudgeAgent.finalize_judgment []).debate_quality = "fair") ∧
    (RapBattleJudge.finalize_judgment rapper1 rapper2 []
       = RapBattleJudge.createDefaultJudgment ∧
     (RapBattleJudge.finalize_judgment rapper1 rapper2 []).rapper1_total = 0 ∧
     (RapBattleJudge.finalize_judgment rapper1 rapper2 []).rapper2_total = 0 ∧
     (RapBattleJudge.finalize_judgment rapper1 rapper2 []).winner = "tie" ∧
     (RapBattleJudge.finalize_judgment rapper1 rapper2 []).margin = 0 ∧
     (RapBattleJudge.finalize_judgment rapper1 rapper2 []).best_flow = "tie" ∧
     (RapBattleJudge.finalize_judgment rapper1 rapper2 []).best_wordplay = "tie" ∧
     (RapBattleJudge.finalize_judgment rapper1 rapper2 []).best_punchlines = "tie" ∧
     (RapBattleJudge.finalize_judgment rapper1 rapper2 []).best_crowd_appeal = "tie" ∧
     (RapBattleJudge.finalize_judgment rapper1 rapper2 []).battle_quality = "incomplete") := by
  exact ⟨⟨rfl, rfl, rfl, rfl, rfl, rfl, rfl, rfl, rfl, rfl⟩,
         ⟨rfl, rfl, rfl, rfl, rfl, rfl, rfl, rfl, rfl, rfl⟩⟩

/-- Parsed model evaluation carrying an out-of-range criterion value 15, with
every required field present, as a model response is free to produce. -/
def overRangeEval : JsonObj :=
  [("logic_reasoning", .num 15), ("evidence_quality", .num 6),
   ("source_credibility", .num 6), ("argument_structure", .num 6),
   ("rebuttal_effectiveness", .num 6), ("clarity_communication", .num 6),
   ("factual_accuracy", .num 6), ("originality", .num 6),
   ("strengths", .arr []), ("weaknesses", .arr []), ("specific_feedback", .str "ok")]

/-- C6 counterexample: a successfully parsed response with logic_reasoning 15
produces a DebateScore whose criterion lies outside the closed interval
0 to 10; the judge applies no clamping. -/
theorem C6_counterexample :
    (JudgeAgent.evaluate_turn (fun _ => some overRangeEval)
      (.response "\x7b\x7d") 1 "progressive" []).1.logic_reasoning = 15 ∧
    ¬ ((JudgeAgent.evaluate_turn (fun _ => some overRangeEval)
      (.response "\x7b\x7d") 1 "progressive" []).1.logic_reasoning ≤ 10) := by
  have h : (JudgeAgent.evaluate_turn (fun _ => some overRangeEval)
      (.response "\x7b\x7d") 1 "progressive" []).1.logic_reasoning = 15 := rfl
  exact ⟨h, by rw [h]; norm_num⟩

/-- Sum of the eight debate criteria of a score. -/
def debateSumOfCriteria (s : JudgeAgent.DebateScore) : ℚ :=
  s.logic_reasoning + s.evidence_quality + s.source_credibility + s.argument_structure +
  s.rebuttal_effectiveness + s.clarity_communication + s.factual_accuracy + s.originality

/-- Sum of the eight rap criteria of a score. -/
def rapSumOfCriteria (s : RapBattleJudge.RapBattleScore) : ℚ :=
  s.flow_delivery + s.lyrical_complexity + s.wordplay_creativity + s.punchlines_impact +
  s.crowd_appeal + s.battle_tactics + s.rhyme_scheme + s.originality

/-- All eight debate criteria within the closed interval 0 to 10. -/
def debateCriteriaWithin (s : JudgeAgent.DebateScore) : Prop :=
  (0 ≤ s.logic_reasoning ∧ s.logic_reasoning ≤ 10) ∧
  (0 ≤ s.evidence_quality ∧ s.evidence_quality ≤ 10) ∧
  (0 ≤ s.source_credibility ∧ s.source_credibility ≤ 10) ∧
  (0 ≤ s.argument_structure ∧ s.argument_structure ≤ 10) ∧
  (0 ≤ s.rebuttal_effectiveness ∧ s.rebuttal_effectiveness ≤ 10) ∧
  (0 ≤ s.clarity_communication ∧ s.clarity_communication ≤ 10) ∧
  (0 ≤ s.factual_accuracy ∧ s.factual_accuracy ≤ 10) ∧
  (0 ≤ s.originality ∧ s.originality ≤ 10)

/-- All eight rap criteria within the closed interval 0 to 10. -/
def rapCriteriaWithin (s : RapBattleJudge.RapBattleScore) : Prop :=
  (0 ≤ s.flow_delivery ∧ s.flow_delivery ≤ 10) ∧
  (0 ≤ s.lyrical_complexity ∧ s.lyrical_complexity ≤ 10) ∧
  (0 ≤ s.wordplay_creativity ∧ s.wordplay_creativity ≤ 10) ∧
  (0 ≤ s.punchlines_impact ∧ s.punchlines_impact ≤ 10) ∧
  (0 ≤ s.crowd_appeal ∧ s.crowd_appeal ≤ 10) ∧
  (0 ≤ s.battle_tactics ∧ s.battle_tactics ≤ 10) ∧
  (0 ≤ s.rhyme_scheme ∧ s.rhyme_scheme ≤ 10) ∧
  (0 ≤ s.originality ∧ s.originality ≤ 10)

/-- Numeric rendering of a successful Python addition: numbers add, and a
string or list concatenation renders 0 on both sides. -/
theorem pyAdd_asNum (x y z : Json) (h : pyAdd x y = some z) :
    asNum z = asNum x + asNum y := by
  cases x with
  | num a =>
    cases y with
    | num b =>
      simp only [pyAdd, Option.some.injEq] at h
      subst h
      simp [asNum]
    | str b => simp [pyAdd] at h
    | arr b => simp [pyAdd] at h
  | str a =>
    cases y with
    | num b => simp [pyAdd] at h
    | str b =>
      simp only [pyAdd, Option.some.injEq] at h
      subst h
      simp [asNum]
    | arr b => simp [pyAdd] at h
  | arr a =>
    cases y with
    | num b => simp [pyAdd] at h
    | str b => simp [pyAdd] at h
    | arr b =>
      simp only [pyAdd, Option.some.injEq] at h
      subst h
      simp [asNum]

/-- Numeric rendering of a successful Python sum chain: the rendering of the
result is the sum of the renderings of the operands. -/
theorem pySumList_asNum (vs : List Json) :
    ∀ (acc t : Json), pySumList acc vs = some t →
      asNum t = asNum acc + (vs.map asNum).sum := by
  induction vs with
  | nil =>
    intro acc t h
    simp only [pySumList, Option.some.injEq] at h
    subst h
    simp
  | cons v rest ih =>
    intro acc t h
    simp only [pySumList] at h
    cases hv : pyAdd acc v with
    | none => simp [hv] at h
    | some acc2 =>
      simp only [hv] at h
      have hrec := ih acc2 t h
      rw [hrec, pyAdd_asNum acc v acc2 hv]
      simp only [List.map_cons, List.sum_cons]
      ring

/-- C6 as amended: in every produced score (parsed or fallback, both judges)
the total equals the locally recomputed arithmetic sum of the eight criterion
values; the criterion values themselves are taken unclamped from the parsed
response, so the 0-to-10 bound is guaranteed only for the fallback scores,
whose criteria are all 6. -/
theorem C6_total_recomputed (loads loads2 : String → Option JsonObj)
    (outcome outcome2 : ModelOutcome) (n n2 : Nat) (sp rp : String)
    (ds : List JudgeAgent.DebateScore) (rs : List RapBattleJudge.RapBattleScore) :
    (JudgeAgent.evaluate_turn loads outcome n sp ds).1.total_score
      = debateSumOfCriteria (JudgeAgent.evaluate_turn loads outcome n sp ds).1 ∧
    (RapBattleJudge.evaluate_round loads2 outcome2 n2 rp rs).1.total_score
      = rapSumOfCriteria (RapBattleJudge.evaluate_round loads2 outcome2 n2 rp rs).1 ∧
    debateCriteriaWithin (JudgeAgent.createFallbackScore n sp) ∧
    rapCriteriaWithin (RapBattleJudge.createFallbackScore n2 rp) := by
  refine ⟨?_, ?_, ?_, ?_⟩
  · cases outcome with
    | createError =>
      norm_num [JudgeAgent.evaluate_turn, JudgeAgent.createFallbackScore, debateSumOfCriteria]
    | invokeError =>
      norm_num [JudgeAgent.evaluate_turn, JudgeAgent.createFallbackScore, debateSumOfCriteria]
    | response content =>
      simp only [JudgeAgent.evaluate_turn]
      cases hc : JudgeAgent.criteriaJsons (JudgeAgent.parseEvaluationResponse loads content) with
      | none =>
        simp only [hc]
        norm_num [JudgeAgent.createFallbackScore, debateSumOfCriteria]
      | some t =>
        obtain ⟨a, b, c, d, e, f, g, h⟩ := t
        simp only [hc]
        cases hs : pySumList a [b, c, d, e, f, g, h] with
        | none =>
          simp only [hs]
          norm_num [JudgeAgent.createFallbackScore, debateSumOfCriteria]
        | some total =>
          simp only [hs]
          have hsum := pySumList_asNum [b, c, d, e, f, g, h] a total hs
          simp only [List.map_cons, List.map_nil, List.sum_cons, List.sum_nil] at hsum
          simp only [debateSumOfCriteria]
          linarith [hsum]
  · cases outcome2 with
    | createError =>
      norm_num [RapBattleJudge.evaluate_round, RapBattleJudge.createFallbackScore,
        rapSumOfCriteria]
    | invokeError =>
      norm_num [RapBattleJudge.evaluate_round, RapBattleJudge.createFallbackScore,
        rapSumOfCriteria]
    | response content =>
      simp only [RapBattleJudge.evaluate_round]
      cases hc : RapBattleJudge.criteriaJsons
          (RapBattleJudge.parseEvaluationResponse loads2 content) with
      | none =>
        simp only [hc]
        norm_num [RapBattleJudge.createFallbackScore, rapSumOfCriteria]
      | some t =>
        obtain ⟨a, b, c, d, e, f, g, h⟩ := t
        simp only [hc]
        cases hs : pySumList a [b, c, d, e, f, g, h] with
        | none =>
          simp only [hs]
          norm_num [RapBattleJudge.createFallbackScore, rapSumOfCriteria]
        | some total =>
          simp only [hs]
          have hsum := pySumList_asNum [b, c, d, e, f, g, h] a total hs
          simp only [List.map_cons, List.map_nil, List.sum_cons, List.sum_nil] at hsum
          simp only [rapSumOfCriteria]
          linarith [hsum]
  · norm_num [JudgeAgent.createFallbackScore, debateCriteriaWithin]
  · norm_num [RapBattleJudge.createFallbackScore, rapCriteriaWithin]

/-- C9 counterexample: on the model-invocation-failure path the judge returns
a fallback score (total 48) but its owned score collection is left unchanged,
so the evaluated turn has no entry in the collection finalize later reads. -/
theorem C9_counterexample :
    (JudgeAgent.evaluate_turn (fun _ => none) .invokeError 1 "progressive" []).1.total_score
      = 48 ∧
    (JudgeAgent.evaluate_turn (fun _ => none) .invokeError 1 "progressive" []).2 = [] ∧
    (RapBattleJudge.evaluate_round (fun _ => none) .createError 1 "Kendrick" []).1.total_score
      = 48 ∧
    (RapBattleJudge.evaluate_round (fun _ => none) .createError 1 "Kendrick" []).2 = [] :=
  ⟨rfl, rfl, rfl, rfl⟩

/-- Parsed debate evaluation whose required fields are all present but whose
first criterion is a string while the rest are numbers, so the
left-associated Python + raises TypeError at its first step. -/
def nonNumericEval : JsonObj :=
  [("logic_reasoning", .str "high"), ("evidence_quality", .num 6),
   ("source_credibility", .num 6), ("argument_structure", .num 6),
   ("rebuttal_effectiveness", .num 6), ("clarity_communication", .num 6),
   ("factual_accuracy", .num 6), ("originality", .num 6),
   ("strengths", .arr []), ("weaknesses", .arr []), ("specific_feedback", .str "ok")]

/-- Rap analog of the mixed-kind parsed evaluation. -/
def rapNonNumericEval : JsonObj :=
  [("flow_delivery", .str "smooth"), ("lyrical_complexity", .num 6),
   ("wordplay_creativity", .num 6), ("punchlines_impact", .num 6),
   ("crowd_appeal", .num 6), ("battle_tactics", .num 6),
   ("rhyme_scheme", .num 6), ("originality", .num 6),
   ("best_bars", .arr []), ("weaknesses", .arr []), ("judge_comments", .str "ok")]

/-- Parsed debate evaluation whose eight criteria are all strings: the
left-associated Python + concatenates, so the source builds the score and
appends it. -/
def allStringEval : JsonObj :=
  [("logic_reasoning", .str "a"), ("evidence_quality", .str "b"),
   ("source_credibility", .str "c"), ("argument_structure", .str "d"),
   ("rebuttal_effectiveness", .str "e"), ("clarity_communication", .str "f"),
   ("factual_accuracy", .str "g"), ("originality", .str "h"),
   ("strengths", .arr []), ("weaknesses", .arr []), ("specific_feedback", .str "ok")]

/-- Rap analog of the all-string parsed evaluation. -/
def rapAllStringEval : JsonObj :=
  [("flow_delivery", .str "a"), ("lyrical_complexity", .str "b"),
   ("wordplay_creativity", .str "c"), ("punchlines_impact", .str "d"),
   ("crowd_appeal", .str "e"), ("battle_tactics", .str "f"),
   ("rhyme_scheme", .str "g"), ("originality", .str "h"),
   ("best_bars", .arr []), ("weaknesses", .arr []), ("judge_comments", .str "ok")]

/-- C9 as amended: a score built from a parsed response whose eight
criterion values admit the Python sum (all numbers, which add, or
homogeneously strings or lists, which concatenate) is appended to the
judge-owned collection; the remaining paths (model-creation failure,
model-invocation failure, and the TypeError raised by the sum on mixed
criterion kinds) return a fallback score without appending, so finalize sees
only the former. -/
theorem C9_append_behavior (loads loadsN loads2 loads2N : String → Option JsonObj)
    (content contentN content2 content2N : String) (t t2 : Json)
    (n n2 : Nat) (sp rp : String) (ds : List JudgeAgent.DebateScore)
    (rs : List RapBattleJudge.RapBattleScore)
    (hsome : JudgeAgent.criteriaSum (JudgeAgent.parseEvaluationResponse loads content)
      = some t)
    (hnone : JudgeAgent.criteriaSum (JudgeAgent.parseEvaluationResponse loadsN contentN)
      = none)
    (hsome2 : RapBattleJudge.criteriaSum
      (RapBattleJudge.parseEvaluationResponse loads2 content2) = some t2)
    (hnone2 : RapBattleJudge.criteriaSum
      (RapBattleJudge.parseEvaluationResponse loads2N content2N) = none) :
    ((JudgeAgent.evaluate_turn loads .createError n sp ds).2 = ds) ∧
    ((JudgeAgent.evaluate_turn loads .invokeError n sp ds).2 = ds) ∧
    ((JudgeAgent.evaluate_turn loadsN (.response contentN) n sp ds).2 = ds) ∧
    ((JudgeAgent.evaluate_turn loads (.response content) n sp ds).2
      = ds ++ [(JudgeAgent.evaluate_turn loads (.response content) n sp ds).1]) ∧
    ((RapBattleJudge.evaluate_round loads2 .createError n2 rp rs).2 = rs) ∧
    ((RapBattleJudge.evaluate_round loads2 .invokeError n2 rp rs).2 = rs) ∧
    ((RapBattleJudge.evaluate_round loads2N (.response content2N) n2 rp rs).2 = rs) ∧
    ((RapBattleJudge.evaluate_round loads2 (.response content2) n2 rp rs).2
      = rs ++ [(RapBattleJudge.evaluate_round loads2 (.response content2) n2 rp rs).1]) := by
  refine ⟨rfl, rfl, ?_, ?_, rfl, rfl, ?_, ?_⟩
  · unfold JudgeAgent.criteriaSum at hnone
    rcases hcj : JudgeAgent.criteriaJsons (JudgeAgent.parseEvaluationResponse loadsN contentN)
      with _ | ⟨a, b, c, d, e, f, g, h⟩
    · simp only [JudgeAgent.evaluate_turn, hcj]
    · simp only [hcj] at hnone
      simp only [JudgeAgent.evaluate_turn, hcj, hnone]
  · unfold JudgeAgent.criteriaSum at hsome
    rcases hcj : JudgeAgent.criteriaJsons (JudgeAgent.parseEvaluationResponse loads content)
      with _ | ⟨a, b, c, d, e, f, g, h⟩
    · simp only [hcj] at hsome
      exact Option.noConfusion hsome
    · simp only [hcj] at hsome
      simp only [JudgeAgent.evaluate_turn, hcj, hsome]
  · unfold RapBattleJudge.criteriaSum at hnone2
    rcases hcj : RapBattleJudge.criteriaJsons
        (RapBattleJudge.parseEvaluationResponse loads2N content2N)
      with _ | ⟨a, b, c, d, e, f, g, h⟩
    · simp only [RapBattleJudge.evaluate_round, hcj]
    · simp only [hcj] at hnone2
      simp only [RapBattleJudge.evaluate_round, hcj, hnone2]
  · unfold RapBattleJudge.criteriaSum at hsome2
    rcases hcj : RapBattleJudge.criteriaJsons
        (RapBattleJudge.parseEvaluationResponse loads2 content2)
      with _ | ⟨a, b, c, d, e, f, g, h⟩
    · simp only [hcj] at hsome2
      exact Option.noConfusion hsome2
    · simp only [hcj] at hsome2
      simp only [RapBattleJudge.evaluate_round, hcj, hsome2]

/-- Witness for C9 at concrete parse outcomes: the all-string evaluations
(whose + chain concatenates, so the score is appended, as in the source) and
the mixed-kind evaluations (whose + chain raises, so it is not). -/
theorem C9_append_behavior_witness :
    JudgeAgent.criteriaSum (JudgeAgent.parseEvaluationResponse
      (fun _ => some allStringEval) "\x7b\x7d") = some (.str "abcdefgh") ∧
    JudgeAgent.criteriaSum (JudgeAgent.parseEvaluationResponse
      (fun _ => some nonNumericEval) "\x7b\x7d") = none ∧
    RapBattleJudge.criteriaSum (RapBattleJudge.parseEvaluationResponse
      (fun _ => some rapAllStringEval) "\x7b\x7d") = some (.str "abcdefgh") ∧
    RapBattleJudge.criteriaSum (RapBattleJudge.parseEvaluationResponse
      (fun _ => some rapNonNumericEval) "\x7b\x7d") = none ∧
    ((JudgeAgent.evaluate_turn (fun _ => some allStringEval)
        (.response "\x7b\x7d") 1 "progressive" []).2
      = [] ++ [(JudgeAgent.evaluate_turn (fun _ => some allStringEval)
        (.response "\x7b\x7d") 1 "progressive" []).1]) :=
  ⟨rfl, rfl, rfl, rfl,
   (C9_append_behavior (fun _ => some allStringEval) (fun _ => some nonNumericEval)
     (fun _ => some rapAllStringEval) (fun _ => some rapNonNumericEval)
     "\x7b\x7d" "\x7b\x7d" "\x7b\x7d" "\x7b\x7d"
     (.str "abcdefgh") (.str "abcdefgh")
     1 1 "progressive" "Kendrick" [] [] rfl rfl rfl rfl).2.2.2.1⟩

/-- A tool whose callable always raises makes every dispatch path of the try
block end in that exception, which the outer handler then stringifies. -/
theorem dispatchInvoke_raises (tool : Tool) (tool_name : String) (e : PyExn)
    (hraise : ∀ v, tool.invoke v = .error e) (args : PyVal) :
    BaseStreamingAgent.dispatchInvoke tool tool_name args = .error e := by
  cases args with
  | str s => exact hraise _
  | num q => exact hraise _
  | dict kvs =>
    simp only [BaseStreamingAgent.dispatchInvoke]
    rcases hca : BaseStreamingAgent.cleanArgs tool kvs with _ | ⟨kv, _ | ⟨kv2, rest⟩⟩
    · exact hraise _
    · by_cases hsw :
        (tool_name == "search_web" && (kv.1 == "query" || kv.1 == "search_query")) = true
      · simp only [hsw, if_true]
        exact hraise _
      · have hswf : (tool_name == "search_web"
            && (kv.1 == "query" || kv.1 == "search_query")) = false := by
          simpa using hsw
        simp only [hswf, Bool.false_eq_true, if_false, hraise kv.2]
        cases e with
        | typeError m => exact hraise _
        | other m => rfl
    · exact hraise _

/-- C7: every tool-call request handled by execute_tool_call produces a
string and never a propagated exception: an invalid request shape and a
missing name give fixed error strings, an unknown tool name gives an error
string naming the tool and listing the known names, and a callable that
always raises (TypeError for a parameter mismatch or any other runtime
failure) gives the descriptive executing-tool error string, for dict and
non-dict argument shapes alike. -/
theorem C7_no_exception_boundary (tools : List Tool) (typeName : String)
    (args args1 : PyVal) (i i1 i2 i3 : Option String)
    (name1 name2 : String) (tool : Tool) (e : PyExn)
    (kvs2 : List (String × PyVal)) (s : String)
    (hne1 : ¬ name1 = "")
    (hnone : tools.find? (fun tl => tl.name == name1) = none)
    (hne2 : ¬ name2 = "")
    (hfind : tools.find? (fun tl => tl.name == name2) = some tool)
    (hraise : ∀ v, tool.invoke v = .error e)
    (hnoidx : kvs2.any (fun kv => kv.1 == "index") = false) :
    BaseStreamingAgent.execute_tool_call tools (.invalid typeName)
      = "Error: Invalid tool call format: " ++ typeName ∧
    BaseStreamingAgent.execute_tool_call tools (.obj "" args i)
      = "Error: Tool name not found in tool call" ∧
    BaseStreamingAgent.execute_tool_call tools (.obj name1 args1 i1)
      = "Error: Tool \x27" ++ name1 ++ "\x27 not found. Available tools: "
        ++ toString (tools.map (fun t => t.name)) ∧
    BaseStreamingAgent.execute_tool_call tools (.obj name2 (.dict kvs2) i2)
      = "Error executing tool \x27" ++ name2 ++ "\x27: " ++ e.msg ∧
    BaseStreamingAgent.execute_tool_call tools (.obj name2 (.str s) i3)
      = "Error executing tool \x27" ++ name2 ++ "\x27: " ++ e.msg := by
  have hb1 : (name1 == "") = false := by
    simpa using hne1
  have hb2 : (name2 == "") = false := by
    simpa using hne2
  refine ⟨rfl, rfl, ?_, ?_, ?_⟩
  · simp only [BaseStreamingAgent.execute_tool_call, hb1, Bool.false_eq_true, if_false, hnone]
  · simp only [BaseStreamingAgent.execute_tool_call, hb2, Bool.false_eq_true, if_false, hfind,
      dispatchInvoke_raises tool name2 e hraise, hnoidx, Bool.false_eq_true, if_false]
  · simp only [BaseStreamingAgent.execute_tool_call, hb2, Bool.false_eq_true, if_false, hfind,
      dispatchInvoke_raises tool name2 e hraise]

/-- Always-raising sample tool used to instantiate the dispatcher boundary. -/
def boomTool : Tool :=
  { name := "boom_tool"
    expected_params := ["query"]
    invoke := fun _ => .error (.other "kaboom") }

/-- Witness for C7 on a registry holding one always-raising tool, an unknown
name and a dict carrying one clean parameter. -/
theorem C7_no_exception_boundary_witness :
    (¬ "missing_tool" = "") ∧
    ([boomTool].find? (fun tl => tl.name == "missing_tool") = none) ∧
    (¬ "boom_tool" = "") ∧
    ([boomTool].find? (fun tl => tl.name == "boom_tool") = some boomTool) ∧
    (BaseStreamingAgent.execute_tool_call [boomTool]
        (.obj "boom_tool" (.dict [("query", .str "x")]) none)
      = "Error executing tool \x27" ++ "boom_tool" ++ "\x27: "
        ++ (PyExn.other "kaboom").msg) :=
  ⟨by decide, by rfl, by decide, by rfl,
   (C7_no_exception_boundary [boomTool] "t" (.str "a") (.str "a") none none none none
     "missing_tool" "boom_tool" boomTool (.other "kaboom") [("query", .str "x")] "y"
     (by decide) (by rfl) (by decide) (by rfl) (fun _ => rfl) (by rfl)).2.2.2.1⟩

/-- C8 counterexample: a mapping whose only key count is in the declared
schema of the tool is not returned unchanged, because the deny-list pass of
filter_arguments runs before the schema pass and count is deny-listed. -/
theorem C8_counterexample :
    ("count" ∈ ["count"]) ∧
    ToolArgumentFilter.filter_arguments ["count"] "some_tool"
      (.dict [("count", .str "5")]) = .dict [] ∧
    PyVal.dict [] ≠ PyVal.dict [("count", PyVal.str "5")] := by
  refine ⟨by decide, rfl, by simp⟩

/-- C8 as amended: filtering a mapping whose keys all lie in the declared
parameter set and outside the PROBLEMATIC_PARAMS deny-list returns it
unchanged; and a mapping with the expected key query plus the unexpected key
index filters to the query entry alone.  Keys that are both expected and
deny-listed are removed, as the counterexample shows. -/
theorem C8_filter_idempotent (expected : List String) (tool_name : String)
    (kvs : List (String × PyVal)) (v w : PyVal)
    (hne : ¬ expected.isEmpty = true)
    (hclean : ∀ kv ∈ kvs, kv.1 ∈ expected ∧ kv.1 ∉ ToolArgumentFilter.PROBLEMATIC_PARAMS)
    (hq : "query" ∈ expected) :
    ToolArgumentFilter.filter_arguments expected tool_name (.dict kvs) = .dict kvs ∧
    ToolArgumentFilter.filter_arguments expected tool_name
      (.dict [("query", v), ("index", w)]) = .dict [("query", v)] := by
  constructor
  · simp only [ToolArgumentFilter.filter_arguments]
    have hfil : kvs.filter (fun kv => !(ToolArgumentFilter.PROBLEMATIC_PARAMS.contains kv.1))
        = kvs := by
      refine List.filter_eq_self.mpr ?_
      intro a ha
      have := (hclean a ha).2
      simp [List.elem_iff]
      simpa [List.elem_iff] using this
    have hexp : (!expected.isEmpty) = true := by
      simp only [Bool.not_eq_true']
      exact Bool.not_eq_true _ ▸ (by simpa using hne)
    rw [hfil]
    rw [if_pos hexp]
    have hkeep : kvs.filter (fun kv => expected.contains kv.1) = kvs := by
      refine List.filter_eq_self.mpr ?_
      intro a ha
      have := (hclean a ha).1
      simpa [List.elem_iff] using this
    rw [hkeep]
    cases kvs with
    | nil => rfl
    | cons kv rest => simp
  · simp only [ToolArgumentFilter.filter_arguments]
    have h1 : ([("query", v), ("index", w)].filter
        (fun kv => !(ToolArgumentFilter.PROBLEMATIC_PARAMS.contains kv.1)))
        = [("query", v)] := by
      simp [ToolArgumentFilter.PROBLEMATIC_PARAMS]
    have hexp : (!expected.isEmpty) = true := by
      simp only [Bool.not_eq_true']
      exact Bool.not_eq_true _ ▸ (by simpa using hne)
    rw [h1, if_pos hexp]
    have h2 : ([("query", v)].filter (fun kv => expected.contains kv.1)) = [("query", v)] := by
      simp [List.elem_iff, hq]
    rw [h2]
    simp

/-- Witness for C8 at a one-key clean mapping under schema query. -/
theorem C8_filter_idempotent_witness :
    (¬ (["query"] : List String).isEmpty = true) ∧
    (("query" : String) ∈ ["query"]) ∧
    ToolArgumentFilter.filter_arguments ["query"] "search_web"
      (.dict [("query", .str "foo")]) = .dict [("query", .str "foo")] :=
  ⟨by decide, by decide,
   (C8_filter_idempotent ["query"] "search_web" [("query", .str "foo")]
     (.str "foo") (.str "bar") (by decide)
     (by intro kv hkv
         simp only [List.mem_singleton] at hkv
         subst hkv
         exact ⟨by decide, by decide⟩)
     (by decide)).1⟩

/-- C10: filter_arguments returns every non-dict argument value (a bare
string or number) unchanged, despite the declared dict result type. -/
theorem C10_nondict_passthrough (expected : List String) (tool_name s : String) (q : ℚ) :
    ToolArgumentFilter.filter_arguments expected tool_name (.str s) = .str s ∧
    ToolArgumentFilter.filter_arguments expected tool_name (.num q) = .num q :=
  ⟨rfl, rfl⟩

/-- Side flip realized by the loop agent selection: left goes to the right
agent whose next_speaker is left, and vice versa. -/
def flipSpeaker (s : String) : String := if s == "left" then "right" else "left"

/-- Expected speaker sequence of n turns starting from a given side. -/
def speakerSeq : String → Nat → List String
  | _, 0 => []
  | s, n + 1 => s :: speakerSeq (flipSpeaker s) n

/-- Every stream_response call increments the turn count by exactly one,
hands the turn to the agent-configured next speaker and preserves the
budget, on the model-creation-error path and the normal path alike. -/
theorem stream_response_step (agent : DebateAI.AgentCfg) (tools : List Tool)
    (wt : Bool) (o : DebateAI.StreamOutcome) (st : DebateAI.ChatState) :
    (DebateAI.stream_response agent tools wt o st).conversation_count
      = st.conversation_count + 1 ∧
    (DebateAI.stream_response agent tools wt o st).current_speaker = agent.next_speaker ∧
    (DebateAI.stream_response agent tools wt o st).max_turns = st.max_turns := by
  unfold DebateAI.stream_response
  cases o.initError <;> simp

/-- The flipped speaker always differs from the current one. -/
theorem flipSpeaker_ne (s : String) : flipSpeaker s ≠ s := by
  unfold flipSpeaker
  by_cases h : (s == "left") = true
  · have hs : s = "left" := by simpa using h
    subst hs
    simp
  · have hs : ¬ s = "left" := by simpa using h
    simp only [h, Bool.false_eq_true, if_false]
    exact fun hc => hs hc.symm

/-- Length of the expected speaker sequence. -/
theorem speakerSeq_length (s : String) (n : Nat) : (speakerSeq s n).length = n := by
  induction n generalizing s with
  | zero => rfl
  | succ m ih => simp [speakerSeq, ih]

/-- The expected speaker sequence never repeats a side on adjacent turns. -/
theorem speakerSeq_chain (n : Nat) : ∀ s, List.Chain' (fun a b => a ≠ b) (speakerSeq s n) := by
  induction n with
  | zero => intro s; simp [speakerSeq]
  | succ m ih =>
    intro s
    cases m with
    | zero => simp [speakerSeq]
    | succ k =>
      have htail := ih (flipSpeaker s)
      simp only [speakerSeq] at htail ⊢
      rw [List.chain'_cons]
      exact ⟨(flipSpeaker_ne s).symm, htail⟩

/-- Loop invariant of debateLoop: with fuel equal to the remaining turn
budget, the loop drives the count exactly to max_turns and visits the
speakers in the alternating sequence from the current speaker. -/
theorem debateLoop_spec (tools : List Tool) (wt : Bool)
    (outcomes : Nat → DebateAI.StreamOutcome) :
    ∀ (fuel : Nat) (st : DebateAI.ChatState),
      st.conversation_count + fuel = st.max_turns →
      (DebateAI.debateLoop tools wt outcomes fuel st).1.conversation_count = st.max_turns ∧
      (DebateAI.debateLoop tools wt outcomes fuel st).2
        = speakerSeq st.current_speaker fuel := by
  intro fuel
  induction fuel with
  | zero =>
    intro st h
    refine ⟨?_, rfl⟩
    simp only [DebateAI.debateLoop]
    omega
  | succ m ih =>
    intro st h
    have hlt : st.conversation_count < st.max_turns := by omega
    simp only [DebateAI.debateLoop, if_pos hlt]
    have hstep := stream_response_step
      (if st.current_speaker == "left" then DebateAI.leftAgentCfg else DebateAI.rightAgentCfg)
      tools wt (outcomes st.conversation_count) st
    have hsp : (DebateAI.stream_response
        (if st.current_speaker == "left" then DebateAI.leftAgentCfg else DebateAI.rightAgentCfg)
        tools wt (outcomes st.conversation_count) st).current_speaker
        = flipSpeaker st.current_speaker := by
      rw [hstep.2.1]
      unfold flipSpeaker DebateAI.leftAgentCfg DebateAI.rightAgentCfg
      by_cases hsl : (st.current_speaker == "left") = true <;> simp [hsl]
    have h2 : (DebateAI.stream_response
        (if st.current_speaker == "left" then DebateAI.leftAgentCfg else DebateAI.rightAgentCfg)
        tools wt (outcomes st.conversation_count) st).conversation_count + m
        = (DebateAI.stream_response
        (if st.current_speaker == "left" then DebateAI.leftAgentCfg else DebateAI.rightAgentCfg)
        tools wt (outcomes st.conversation_count) st).max_turns := by
      rw [hstep.1, hstep.2.2]
      omega
    have hrec := ih _ h2
    refine ⟨?_, ?_⟩
    · rw [hrec.1, hstep.2.2]
    · rw [hrec.2, hsp]
      simp [speakerSeq]

/-- C2: over every run of the streaming debate loop with budget N, each
stream_response call increments the count by exactly one and flips the
speaker to the configured next side regardless of the outcome (errors or
tool calls); the loop terminates with count exactly N; and the visited
speaker sequence is the strict alternation of length N starting from the
configured first speaker left. -/
theorem C2_alternation (tools : List Tool) (wt : Bool)
    (outcomes : Nat → DebateAI.StreamOutcome) (prompt : String) (N : Nat) :
    (∀ (agent : DebateAI.AgentCfg) (o : DebateAI.StreamOutcome) (st : DebateAI.ChatState),
      (DebateAI.stream_response agent tools wt o st).conversation_count
        = st.conversation_count + 1 ∧
      (DebateAI.stream_response agent tools wt o st).current_speaker
        = agent.next_speaker) ∧
    (DebateAI.run_streaming_debate prompt tools wt outcomes N).1.conversation_count = N ∧
    (DebateAI.run_streaming_debate prompt tools wt outcomes N).2 = speakerSeq "left" N ∧
    (DebateAI.run_streaming_debate prompt tools wt outcomes N).2.length = N ∧
    List.Chain' (fun a b => a ≠ b)
      (DebateAI.run_streaming_debate prompt tools wt outcomes N).2 := by
  have hloop := debateLoop_spec tools wt outcomes N
    { messages := [.human prompt]
      current_speaker := "left"
      conversation_count := 0
      max_turns := N } (by simp)
  refine ⟨?_, ?_, ?_, ?_, ?_⟩
  · intro agent o st
    exact ⟨(stream_response_step agent tools wt o st).1,
           (stream_response_step agent tools wt o st).2.1⟩
  · exact hloop.1
  · exact hloop.2
  · unfold DebateAI.run_streaming_debate
    rw [hloop.2]
    exact speakerSeq_length _ N
  · unfold DebateAI.run_streaming_debate
    rw [hloop.2]
    exact speakerSeq_chain N _

/-- Start state of a small debate run used for the streaming-error scenario. -/
def c4State : DebateAI.ChatState :=
  { messages := [.human "topic"]
    current_speaker := "left"
    conversation_count := 0
    max_turns := 4 }

/-- Outcome in which the model streamed the text hello and then raised. -/
def c4Outcome : DebateAI.StreamOutcome :=
  { initError := none
    chunks := [.text "hello"]
    streamError := some "boom"
    finalChunks := []
    finalStreamError := none }

/-- C4 counterexample: with the text hello accumulated before a mid-stream
failure, the finalized message content is the bare error text, which does not
begin with the accumulated text - the accumulated content is replaced, not
suffixed. -/
theorem C4_counterexample :
    (DebateAI.stream_response DebateAI.leftAgentCfg [] false c4Outcome c4State).messages
      = [.human "topic", .ai (DebateAI.streamErrorText "boom") []] ∧
    DebateAI.accumText c4Outcome.chunks = "hello" ∧
    (DebateAI.streamErrorText "boom").take "hello".length ≠ "hello" :=
  ⟨rfl, rfl, by decide⟩

/-- C4 as amended: whenever the streaming model invocation raises
mid-iteration and no tool calls were captured, the text accumulated before
the failure is discarded and the finalized assistant message carries exactly
the fixed error text for the raised exception. -/
theorem C4_stream_error_replaces (agent : DebateAI.AgentCfg) (tools : List Tool)
    (wt : Bool) (chunks fc : List DebateAI.Chunk) (e : String)
    (fse : Option String) (st : DebateAI.ChatState)
    (htc : DebateAI.collectToolCalls chunks = []) :
    (DebateAI.stream_response agent tools wt
        { initError := none, chunks := chunks, streamError := some e,
          finalChunks := fc, finalStreamError := fse } st).messages
      = st.messages ++ [.ai (DebateAI.streamErrorText e) []] ∧
    DebateAI.streamErrorText e = "Error occurred during response generation: " ++ e := by
  refine ⟨?_, rfl⟩
  unfold DebateAI.stream_response
  simp [htc]

/-- Witness for C4 at the concrete hello-then-boom stream. -/
theorem C4_stream_error_replaces_witness :
    DebateAI.collectToolCalls c4Outcome.chunks = [] ∧
    (DebateAI.stream_response DebateAI.leftAgentCfg [] true
        { initError := none, chunks := c4Outcome.chunks, streamError := some "boom",
          finalChunks := [], finalStreamError := none } c4State).messages
      = c4State.messages ++ [.ai (DebateAI.streamErrorText "boom") []] :=
  ⟨rfl,
   (C4_stream_error_replaces DebateAI.leftAgentCfg [] true c4Outcome.chunks []
     "boom" none c4State rfl).1⟩

end Agentic
